import Mathlib

/-!
Verification development for the `otel-aks-autoconfiguration-demo` repository.

The repository ships a 3-tier demo (Express frontend, Express backend,
PostgreSQL) plus documentation. Its specification additionally defines a
minimal OTLP-over-HTTP ingestion-and-forwarding relay (decoder, route
resolver, destination registry, ingestion endpoint, forwarder) that stands in
for the external Azure Monitor Agent; that relay is not implemented anywhere
in the repository's sources, so it is modelled here directly from the
specification text.  The frontend and backend HTTP handlers, by contrast, are
embedded from `frontend/server.js` and `backend/server.js`.
-/

namespace Relay

/-- Modelled from the spec: the three OTLP signal kinds selected by the fixed
ingestion paths `/v1/traces`, `/v1/metrics`, `/v1/logs` (spec §4.4, §6); the
relay itself is absent from the repository sources. -/
inductive SignalKind
  | trace
  | metric
  | log
deriving DecidableEq

/-- Modelled from the spec: a scalar resource-attribute value
(string/int/bool/double, spec §3).  A double is carried as its 64-bit wire
pattern, which the codec transports unchanged. -/
inductive AttrValue
  | str (s : String)
  | int (i : Int)
  | bool (b : Bool)
  | double (bits : Nat)
deriving DecidableEq

/-- Modelled from the spec: `ResourceAttributes`, a mapping from string key to
scalar value attached to a batch (spec §3). -/
abbrev ResourceAttributes := List (String × AttrValue)

/-- Modelled from the spec: a `TelemetryBatch` — an ordered sequence of decoded
records tagged with a signal kind, together with its resource attributes
(spec §3).  Record internals are opaque to the relay, so each record is kept
as its decoded byte payload. -/
structure TelemetryBatch where
  kind : SignalKind
  resource : ResourceAttributes
  records : List (List Nat)
deriving DecidableEq

/-! ### Wire codec

Modelled from the spec: the Protobuf Decoder (spec §4.1) parses a binary body
into a `TelemetryBatch` and the Forwarder re-encodes a batch for the outbound
send (spec §4.5, §8 round-trip property).  The repository contains no decoder
implementation, so a concrete self-delimiting binary format (varint-based
tag/length/value, in the style of protobuf wire encoding) is fixed here. -/

/-- Varint byte encoding of a natural number, by fuel-bounded recursion so
that the kernel can evaluate it (the fuel `n` always suffices because the
value shrinks by a factor of 128 each step). -/
def encodeNatAux : Nat → Nat → List Nat
  | 0, n => [n % 128]
  | fuel + 1, n =>
    if n < 128 then [n] else (n % 128 + 128) :: encodeNatAux fuel (n / 128)

/-- Varint byte encoding of a natural number. -/
def encodeNat (n : Nat) : List Nat := encodeNatAux n n

/-- Varint decoding: consumes continuation bytes (≥ 128) then one final byte. -/
def decodeNat : List Nat → Option (Nat × List Nat)
  | [] => none
  | b :: rest =>
    if b < 128 then some (b, rest)
    else
      match decodeNat rest with
      | some (m, rest2) => some (b - 128 + 128 * m, rest2)
      | none => none

/-- Length-prefixed encoding of a list, given an element encoder. -/
def encodeEach (enc : α → List Nat) : List α → List Nat
  | [] => []
  | a :: as => enc a ++ encodeEach enc as

/-- Length-prefixed encoding of a list, given an element encoder. -/
def encodeListWith (enc : α → List Nat) (xs : List α) : List Nat :=
  encodeNat xs.length ++ encodeEach enc xs

/-- Decodes exactly `k` elements with the given element decoder. -/
def decodeCount (dec : List Nat → Option (α × List Nat)) :
    Nat → List Nat → Option (List α × List Nat)
  | 0, bs => some ([], bs)
  | k + 1, bs =>
    match dec bs with
    | some (a, bs1) =>
      match decodeCount dec k bs1 with
      | some (as, bs2) => some (a :: as, bs2)
      | none => none
    | none => none

/-- Decodes a length-prefixed list. -/
def decodeListWith (dec : List Nat → Option (α × List Nat)) (bs : List Nat) :
    Option (List α × List Nat) :=
  match decodeNat bs with
  | some (k, bs1) => decodeCount dec k bs1
  | none => none

/-- A character is encoded as the varint of its code point. -/
def encodeChar (c : Char) : List Nat := encodeNat c.toNat

/-- Decodes a character from a varint code point. -/
def decodeChar (bs : List Nat) : Option (Char × List Nat) :=
  match decodeNat bs with
  | some (n, rest) => some (Char.ofNat n, rest)
  | none => none

/-- A string is encoded as the length-prefixed list of its characters. -/
def encodeString (s : String) : List Nat := encodeListWith encodeChar s.data

/-- Decodes a length-prefixed string. -/
def decodeString (bs : List Nat) : Option (String × List Nat) :=
  match decodeListWith decodeChar bs with
  | some (cs, rest) => some (String.mk cs, rest)
  | none => none

/-- Signed integers use zig-zag style encoding on top of the varint. -/
def encodeInt : Int → List Nat
  | .ofNat n => encodeNat (2 * n)
  | .negSucc n => encodeNat (2 * n + 1)

/-- Decodes a zig-zag encoded integer. -/
def decodeInt (bs : List Nat) : Option (Int × List Nat) :=
  match decodeNat bs with
  | some (n, rest) =>
    some (if n % 2 = 0 then Int.ofNat (n / 2) else Int.negSucc (n / 2), rest)
  | none => none

/-- An attribute value is a tag byte followed by its payload. -/
def encodeAttrValue : AttrValue → List Nat
  | .str s => 0 :: encodeString s
  | .int i => 1 :: encodeInt i
  | .bool b => 2 :: [if b then 1 else 0]
  | .double bits => 3 :: encodeNat bits

/-- Decodes a tagged attribute value. -/
def decodeAttrValue : List Nat → Option (AttrValue × List Nat)
  | [] => none
  | t :: bs =>
    if t = 0 then
      match decodeString bs with
      | some (s, r) => some (.str s, r)
      | none => none
    else if t = 1 then
      match decodeInt bs with
      | some (i, r) => some (.int i, r)
      | none => none
    else if t = 2 then
      match bs with
      | [] => none
      | b :: r =>
        if b = 0 then some (.bool false, r)
        else if b = 1 then some (.bool true, r)
        else none
    else if t = 3 then
      match decodeNat bs with
      | some (n, r) => some (.double n, r)
      | none => none
    else none

/-- A resource attribute is its key followed by its tagged value. -/
def encodeAttr (kv : String × AttrValue) : List Nat :=
  encodeString kv.1 ++ encodeAttrValue kv.2

/-- Decodes a key/value resource attribute. -/
def decodeAttr (bs : List Nat) : Option ((String × AttrValue) × List Nat) :=
  match decodeString bs with
  | some (k, bs1) =>
    match decodeAttrValue bs1 with
    | some (v, bs2) => some ((k, v), bs2)
    | none => none
  | none => none

/-- Wire tag identifying the signal-specific schema of a body (spec §4.1: a
buffer is only valid for the declared signal's wire schema). -/
def kindTag : SignalKind → Nat
  | .trace => 0
  | .metric => 1
  | .log => 2

/-- A batch is encoded as its signal tag, its length-prefixed resource
attributes, and its length-prefixed records. -/
def encodeBatch (b : TelemetryBatch) : List Nat :=
  kindTag b.kind ::
    (encodeListWith encodeAttr b.resource ++
      encodeListWith (encodeListWith encodeNat) b.records)

/-- Modelled from the spec: the Decoder's failure taxonomy — `DecodeError` for
a buffer that is not valid for the declared signal's wire schema, and
`UnsupportedEncodingError` when the caller claims a non-protobuf content type
(spec §4.1). -/
inductive DecodeFailure
  | decodeError (detail : String)
  | unsupportedEncoding (detail : String)
deriving DecidableEq

/-- Modelled from the spec: body decoding for a declared signal kind; fails
with `DecodeError` when the buffer does not follow that signal's wire schema
or has trailing garbage (spec §4.1). -/
def decodeBody (kind : SignalKind) : List Nat → Except DecodeFailure TelemetryBatch
  | [] => .error (.decodeError "empty body")
  | t :: rest =>
    if t = kindTag kind then
      match decodeListWith decodeAttr rest with
      | some (attrs, rest1) =>
        match decodeListWith (decodeListWith decodeNat) rest1 with
        | some (recs, []) => .ok ⟨kind, attrs, recs⟩
        | some (_, _ :: _) => .error (.decodeError "trailing bytes")
        | none => .error (.decodeError "bad records section")
      | none => .error (.decodeError "bad resource section")
    else .error (.decodeError "signal schema mismatch")

/-- Modelled from the spec: the Protobuf Decoder entry point — a pure function
from a claimed content type, a declared signal kind and a raw byte buffer to a
`TelemetryBatch` or a failure (spec §4.1). -/
def decodeRequest (contentType : String) (kind : SignalKind) (bs : List Nat) :
    Except DecodeFailure TelemetryBatch :=
  if contentType = "application/x-protobuf" then decodeBody kind bs
  else .error (.unsupportedEncoding contentType)

/-! ### Codec round-trip lemmas -/

theorem decodeNat_encodeNatAux (fuel : Nat) :
    ∀ n rest, n ≤ fuel → decodeNat (encodeNatAux fuel n ++ rest) = some (n, rest) := by
  induction fuel with
  | zero =>
    intro n rest hn
    have h0 : n = 0 := Nat.le_zero.mp hn
    subst h0
    simp [encodeNatAux, decodeNat]
  | succ fuel ih =>
    intro n rest hn
    unfold encodeNatAux
    by_cases h : n < 128
    · simp [h, decodeNat]
    · have h2 : ¬ (n % 128 + 128 < 128) := by omega
      simp only [if_neg h, List.cons_append, decodeNat, if_neg h2]
      rw [ih (n / 128) rest (by
        have := Nat.div_lt_self (by omega : 0 < n) (by omega : 1 < 128)
        omega)]
      have hmd : n % 128 + 128 - 128 + 128 * (n / 128) = n := by
        have := Nat.mod_add_div n 128
        omega
      simp only [hmd]

theorem decodeNat_encodeNat (n : Nat) (rest : List Nat) :
    decodeNat (encodeNat n ++ rest) = some (n, rest) :=
  decodeNat_encodeNatAux n n rest le_rfl

theorem decodeCount_encodeEach {α : Type} (enc : α → List Nat)
    (dec : List Nat → Option (α × List Nat))
    (h : ∀ a rest, dec (enc a ++ rest) = some (a, rest)) :
    ∀ (xs : List α) (rest : List Nat),
      decodeCount dec xs.length (encodeEach enc xs ++ rest) = some (xs, rest) := by
  intro xs
  induction xs with
  | nil => intro rest; simp [encodeEach, decodeCount]
  | cons a as ih =>
    intro rest
    simp only [encodeEach, List.length_cons, decodeCount, List.append_assoc, h, ih]

theorem decodeListWith_encodeListWith {α : Type} (enc : α → List Nat)
    (dec : List Nat → Option (α × List Nat))
    (h : ∀ a rest, dec (enc a ++ rest) = some (a, rest))
    (xs : List α) (rest : List Nat) :
    decodeListWith dec (encodeListWith enc xs ++ rest) = some (xs, rest) := by
  unfold encodeListWith decodeListWith
  rw [List.append_assoc, decodeNat_encodeNat]
  exact decodeCount_encodeEach enc dec h xs rest

theorem decodeChar_encodeChar (c : Char) (rest : List Nat) :
    decodeChar (encodeChar c ++ rest) = some (c, rest) := by
  unfold decodeChar encodeChar
  rw [decodeNat_encodeNat]
  simp [Char.ofNat_toNat]

theorem decodeString_encodeString (s : String) (rest : List Nat) :
    decodeString (encodeString s ++ rest) = some (s, rest) := by
  cases s with
  | mk cs =>
    unfold decodeString encodeString
    rw [decodeListWith_encodeListWith encodeChar decodeChar decodeChar_encodeChar]

theorem decodeInt_encodeInt (i : Int) (rest : List Nat) :
    decodeInt (encodeInt i ++ rest) = some (i, rest) := by
  cases i with
  | ofNat n =>
    unfold decodeInt encodeInt
    rw [decodeNat_encodeNat]
    simp [Nat.mul_div_cancel_left, Nat.mul_mod_right]
  | negSucc n =>
    unfold decodeInt encodeInt
    rw [decodeNat_encodeNat]
    have h1 : (2 * n + 1) % 2 = 1 := by omega
    have h2 : (2 * n + 1) / 2 = n := by omega
    simp [h1, h2]

theorem decodeAttrValue_encodeAttrValue (v : AttrValue) (rest : List Nat) :
    decodeAttrValue (encodeAttrValue v ++ rest) = some (v, rest) := by
  cases v with
  | str s => simp [encodeAttrValue, decodeAttrValue, decodeString_encodeString]
  | int i => simp [encodeAttrValue, decodeAttrValue, decodeInt_encodeInt]
  | bool b => cases b <;> simp [encodeAttrValue, decodeAttrValue]
  | double bits => simp [encodeAttrValue, decodeAttrValue, decodeNat_encodeNat]

theorem decodeAttr_encodeAttr (kv : String × AttrValue) (rest : List Nat) :
    decodeAttr (encodeAttr kv ++ rest) = some (kv, rest) := by
  obtain ⟨k, v⟩ := kv
  unfold decodeAttr encodeAttr
  rw [List.append_assoc]
  simp [decodeString_encodeString, decodeAttrValue_encodeAttrValue]

theorem decodeBody_encodeBatch (b : TelemetryBatch) :
    decodeBody b.kind (encodeBatch b) = .ok b := by
  obtain ⟨kind, resource, records⟩ := b
  have hrec :
      decodeListWith (decodeListWith decodeNat)
        (encodeListWith (encodeListWith encodeNat) records ++ []) =
        some (records, []) :=
    decodeListWith_encodeListWith _ _
      (fun a rest => decodeListWith_encodeListWith encodeNat decodeNat
        decodeNat_encodeNat a rest) records []
  rw [List.append_nil] at hrec
  simp [encodeBatch, decodeBody,
    decodeListWith_encodeListWith encodeAttr decodeAttr decodeAttr_encodeAttr, hrec]

theorem decodeRequest_encodeBatch (b : TelemetryBatch) :
    decodeRequest "application/x-protobuf" b.kind (encodeBatch b) = .ok b := by
  unfold decodeRequest
  rw [if_pos rfl]
  exact decodeBody_encodeBatch b

theorem decodeBody_kind (kind : SignalKind) (bs : List Nat)
    (b : TelemetryBatch) (h : decodeBody kind bs = .ok b) : b.kind = kind := by
  cases bs with
  | nil => simp [decodeBody] at h
  | cons t rest =>
    simp only [decodeBody] at h
    split at h
    · split at h
      · split at h
        · injection h with h'
          rw [← h']
        · exact absurd h (by simp)
        · exact absurd h (by simp)
      · exact absurd h (by simp)
    · exact absurd h (by simp)

theorem decodeRequest_kind (ct : String) (kind : SignalKind) (bs : List Nat)
    (b : TelemetryBatch) (h : decodeRequest ct kind bs = .ok b) : b.kind = kind := by
  unfold decodeRequest at h
  split at h
  · exact decodeBody_kind kind bs b h
  · exact absurd h (by simp)

/-! ### Resource/Route Resolver -/

/-- Modelled from the spec: `RouteKey`, the value derived from the
`service.namespace` resource attribute and used to look up a Destination
(spec §3). -/
abbrev RouteKey := String

/-- Modelled from the spec: the Resolver's terminal error when the namespace
attribute is absent from the resource attributes (spec §4.2). -/
inductive ResolveFailure
  | missingRouteKey
deriving DecidableEq

/-- Modelled from the spec: the Resource/Route Resolver — a deterministic,
side-effect-free extraction of the `RouteKey` from a batch's resource
attributes; fails with `MissingRouteKeyError` when the `service.namespace`
attribute is absent (spec §4.2).  A namespace attribute carrying a non-string
scalar provides no route key and is treated as absent. -/
def resolveRouteKey (attrs : ResourceAttributes) : Except ResolveFailure RouteKey :=
  match attrs.find? (fun kv => kv.1 == "service.namespace") with
  | some (_, .str s) => .ok s
  | some _ => .error .missingRouteKey
  | none => .error .missingRouteKey

/-! ### Destination Registry -/

/-- Modelled from the spec: a `Destination` — a target sink's endpoint URL and
credential, registered under a namespace via the registration control surface
(spec §3, §6). -/
structure Destination where
  endpoint : String
  credential : String
deriving DecidableEq

/-- Modelled from the spec: the Destination Registry state, a mapping from
route key to destination (spec §4.3).  Kept as an association list whose
operations are the atomic registry operations. -/
abbrev Registry := List (RouteKey × Destination)

/-- Modelled from the spec: `lookup(RouteKey) -> Destination | NotFound`
(spec §4.3); `none` is the `NotFound` outcome. -/
def lookupDest (r : Registry) (k : RouteKey) : Option Destination :=
  match r.find? (fun p => p.1 == k) with
  | some p => some p.2
  | none => none

/-- Modelled from the spec: the two registry mutations — `register` inserts or
replaces atomically, `deregister` removes atomically (spec §4.3). -/
inductive RegistryOp
  | register (ns : RouteKey) (d : Destination)
  | deregister (ns : RouteKey)
deriving DecidableEq

/-- The route key an operation acts on. -/
def RegistryOp.key : RegistryOp → RouteKey
  | .register ns _ => ns
  | .deregister ns => ns

/-- The per-key value written by an operation. -/
def RegistryOp.write : RegistryOp → Option Destination
  | .register _ d => some d
  | .deregister _ => none

/-- Applies one atomic registry operation. -/
def applyOp (r : Registry) : RegistryOp → Registry
  | .register ns d => (ns, d) :: r.filter (fun p => p.1 != ns)
  | .deregister ns => r.filter (fun p => p.1 != ns)

/-- Applies a sequence of registry operations in the order they were
committed; this total order is the linearization order of spec §4.3. -/
def applyOps (r : Registry) (ops : List RegistryOp) : Registry :=
  ops.foldl applyOp r

/-- The last value written to key `k` by a sequence of operations, if any
operation in the sequence touches `k`. -/
def lastWriteOn (k : RouteKey) : List RegistryOp → Option (Option Destination)
  | [] => none
  | op :: ops =>
    match lastWriteOn k ops with
    | some v => some v
    | none => if op.key = k then some op.write else none

/-! ### Ingestion Endpoint -/

/-- Modelled from the spec: the observability-hook counters
(spec §6): `ingested_total`, `decode_errors_total`, `unroutable_total`,
`delivered_total`, `dead_lettered_total`, `dropped_total`. -/
structure Counters where
  ingested : Nat
  decodeErrors : Nat
  unroutable : Nat
  delivered : Nat
  deadLettered : Nat
  dropped : Nat
deriving DecidableEq

/-- Modelled from the spec: the error taxonomy surfaced in HTTP error bodies
(spec §7). -/
inductive ErrorKind
  | protocolViolation
  | decodeError
deriving DecidableEq

/-- Modelled from the spec: the parts of an inbound HTTP request the endpoint
inspects — method, path, content type, optional `Content-Encoding` header,
whether the connection was negotiated over TLS, and the raw body
(spec §4.4, §6). -/
structure HttpRequest where
  method : String
  path : String
  contentType : String
  contentEncoding : Option String
  tls : Bool
  body : List Nat
deriving DecidableEq

/-- Modelled from the spec: the endpoint's HTTP response — a status code and,
for 400 responses, the error kind of the JSON error body (spec §4.4, §6). -/
structure HttpResponse where
  status : Nat
  errorKind : Option ErrorKind
deriving DecidableEq

/-- Modelled from the spec: a `ForwardTask`, a TelemetryBatch bound to its one
resolved Destination, queued for transmission (spec §3). -/
structure ForwardTask where
  dest : Destination
  batch : TelemetryBatch
deriving DecidableEq

/-- Modelled from the spec: the relay state visible to the Ingestion
Endpoint — the registry, the bounded ForwardTask queue with its capacity, the
counters, and the sink-of-last-resort that logs undeliverable batches before
they are discarded (spec §4.3–§4.5, §6). -/
structure IngestState where
  registry : Registry
  queue : List ForwardTask
  capacity : Nat
  counters : Counters
  lastResort : List TelemetryBatch
deriving DecidableEq

/-- Maps an ingestion path to its signal kind (spec §4.4: three fixed
paths). -/
def signalKindOfPath : String → Option SignalKind
  | "/v1/traces" => some .trace
  | "/v1/metrics" => some .metric
  | "/v1/logs" => some .log
  | _ => none

/-- Modelled from the spec: the protocol checks of §4.4 — method must be POST,
content type must be `application/x-protobuf`, a `Content-Encoding` header is
forbidden (any value), and TLS is an unsupported transport. -/
def protocolViolated (rq : HttpRequest) : Bool :=
  rq.method != "POST" || rq.contentType != "application/x-protobuf" ||
    rq.contentEncoding.isSome || rq.tls

/-- Modelled from the spec: enqueue with back-pressure — when the bounded
queue is full the enqueue fails fast and the task is counted as a drop
instead of blocking the producer (spec §4.5).  Returns the new queue and
whether the task was dropped. -/
def enqueueTask (cap : Nat) (q : List ForwardTask) (t : ForwardTask) :
    List ForwardTask × Bool :=
  if q.length < cap then (q ++ [t], false) else (q, true)

/-- Modelled from the spec: the Ingestion Endpoint's per-request contract
(spec §4.4): reject protocol violations and decode failures with 400; on
success resolve the route; a missing route key is terminal, counted and
discarded after a 202; a `NotFound` lookup yields 202, counts the batch as
unroutable/dropped and routes it to the sink-of-last-resort; otherwise a
ForwardTask is enqueued (fail-fast counted drop when the bounded queue is
full, spec §4.5) and 202 is returned immediately. -/
def handleRequest (st : IngestState) (rq : HttpRequest) : HttpResponse × IngestState :=
  match signalKindOfPath rq.path with
  | none => (⟨404, none⟩, st)
  | some kind =>
    if protocolViolated rq then
      (⟨400, some .protocolViolation⟩, st)
    else
      match decodeRequest rq.contentType kind rq.body with
      | .error _ =>
        (⟨400, some .decodeError⟩,
          { st with counters := { st.counters with decodeErrors := st.counters.decodeErrors + 1 } })
      | .ok batch =>
        match resolveRouteKey batch.resource with
        | .error _ =>
          (⟨202, none⟩,
            { st with counters :=
                { st.counters with
                    ingested := st.counters.ingested + 1
                    dropped := st.counters.dropped + 1 } })
        | .ok key =>
          match lookupDest st.registry key with
          | none =>
            (⟨202, none⟩,
              { st with
                  counters :=
                    { st.counters with
                        ingested := st.counters.ingested + 1
                        unroutable := st.counters.unroutable + 1
                        dropped := st.counters.dropped + 1 }
                  lastResort := batch :: st.lastResort })
          | some dest =>
            let eq2 := enqueueTask st.capacity st.queue ⟨dest, batch⟩
            if eq2.2 then
              (⟨202, none⟩,
                { st with
                    counters :=
                      { st.counters with
                          ingested := st.counters.ingested + 1
                          dropped := st.counters.dropped + 1 }
                    queue := eq2.1 })
            else
              (⟨202, none⟩,
                { st with
                    counters := { st.counters with ingested := st.counters.ingested + 1 }
                    queue := eq2.1 })

/-! ### Forwarder -/

/-- Modelled from the spec: terminal states of the per-task state machine
`Queued → Sending → {Delivered | Retrying → Sending | DeadLettered}`
(spec §4.5). -/
inductive TaskOutcome
  | delivered
  | deadLettered
deriving DecidableEq

/-- 2xx statuses are `Delivered` (spec §4.5). -/
def isSuccessStatus (s : Nat) : Bool := 200 ≤ s && s < 300

/-- 429 and 5xx statuses are retryable (spec §4.5). -/
def isRetryableStatus (s : Nat) : Bool := s == 429 || (500 ≤ s && s < 600)

/-- Modelled from the spec: the bounded retry count, default 5 — after five
consecutive retryable failures a task dead-letters and a sixth send attempt
must not occur (spec §4.5, §8). -/
def defaultMaxSendAttempts : Nat := 5

/-- Modelled from the spec: nominal exponential backoff before retry `i` —
base 500 ms doubled each retry, capped at 30 s; jitter of ±20% is applied on
top of this nominal value at run time (spec §4.5). -/
def backoffNominalMs (i : Nat) : Nat := min (500 * 2 ^ i) 30000

/-- One outbound HTTP send issued by the Forwarder: the target destination
and the re-encoded payload (spec §4.5). -/
structure Send where
  dest : Destination
  body : List Nat
deriving DecidableEq

/-- Result of running one ForwardTask to a terminal state: the outcome and
the outbound sends that were issued, in order. -/
structure SendResult where
  outcome : TaskOutcome
  sends : List Send
deriving DecidableEq

/-- Modelled from the spec: the Forwarder's send loop for one ForwardTask
(spec §4.5).  `respond i` is the HTTP status the Destination answers to the
`i`-th send attempt (0-based); `left` is the number of send attempts still
allowed.  2xx terminates with `Delivered`; 429/5xx retries while attempts
remain, else `DeadLettered`; any other status dead-letters without retry. -/
def runTask (t : ForwardTask) (respond : Nat → Nat) (done : Nat) :
    Nat → SendResult
  | 0 => ⟨.deadLettered, []⟩
  | left + 1 =>
    let snd : Send := ⟨t.dest, encodeBatch t.batch⟩
    let s := respond done
    if isSuccessStatus s then ⟨.delivered, [snd]⟩
    else if isRetryableStatus s then
      let r := runTask t respond (done + 1) left
      ⟨r.outcome, snd :: r.sends⟩
    else ⟨.deadLettered, [snd]⟩

/-- Modelled from the spec: the observability hook applied at a task's
terminal state — `Delivered` bumps `delivered_total`, `DeadLettered` bumps
`dead_lettered_total` before the task is discarded (spec §4.5, §6). -/
def reportOutcome (c : Counters) : TaskOutcome → Counters
  | .delivered => { c with delivered := c.delivered + 1 }
  | .deadLettered => { c with deadLettered := c.deadLettered + 1 }

/-- Modelled from the spec: capacity shedding — when over the limit, the
oldest queued, not-yet-sent tasks are shed and counted as drops
(spec §4.5).  Returns the surviving queue and the number of shed tasks. -/
def shedOldest (cap : Nat) (q : List ForwardTask) : List ForwardTask × Nat :=
  if q.length ≤ cap then (q, 0) else (q.drop (q.length - cap), q.length - cap)

/-! ### Registry lemmas -/

theorem find?_filter_ne (r : Registry) (k ns : RouteKey) (h : k ≠ ns) :
    (r.filter (fun p => p.1 != ns)).find? (fun p => p.1 == k) =
      r.find? (fun p => p.1 == k) := by
  induction r with
  | nil => rfl
  | cons p r ih =>
    by_cases hp : p.1 = ns
    · have h1 : (p.1 != ns) = false := by simp [hp]
      have h2 : (p.1 == k) = false := by
        simp only [beq_eq_false_iff_ne, ne_eq]
        rw [hp]
        exact fun hk => h hk.symm
      simp [List.filter, List.find?, h1, h2, ih]
    · have h1 : (p.1 != ns) = true := by simp [hp]
      by_cases hk : p.1 = k
      · have h2 : (p.1 == k) = true := by simp [hk]
        simp [List.filter, List.find?, h1, h2]
      · have h2 : (p.1 == k) = false := by simp [hk]
        simp [List.filter, List.find?, h1, h2, ih]

theorem find?_filter_self (r : Registry) (ns : RouteKey) :
    (r.filter (fun p => p.1 != ns)).find? (fun p => p.1 == ns) = none := by
  induction r with
  | nil => rfl
  | cons p r ih =>
    by_cases hp : p.1 = ns
    · have h1 : (p.1 != ns) = false := by simp [hp]
      simp [List.filter, h1, ih]
    · have h1 : (p.1 != ns) = true := by simp [hp]
      have h2 : (p.1 == ns) = false := by simp [hp]
      simp [List.filter, List.find?, h1, h2, ih]

theorem lookup_applyOp_key (r : Registry) (op : RegistryOp) :
    lookupDest (applyOp r op) op.key = op.write := by
  cases op with
  | register ns d => simp [applyOp, lookupDest, RegistryOp.key, RegistryOp.write, List.find?]
  | deregister ns =>
    simp only [applyOp, lookupDest, RegistryOp.key, RegistryOp.write]
    rw [find?_filter_self]

theorem lookup_applyOp_ne (r : Registry) (op : RegistryOp) (k : RouteKey)
    (h : op.key ≠ k) : lookupDest (applyOp r op) k = lookupDest r k := by
  cases op with
  | register ns d =>
    have hns : ns ≠ k := h
    have h2 : ((ns, d).1 == k) = false := by simp [hns]
    simp only [applyOp, lookupDest, List.find?, h2]
    rw [find?_filter_ne r k ns (fun hk => hns hk.symm)]
  | deregister ns =>
    have hns : ns ≠ k := h
    simp only [applyOp, lookupDest]
    rw [find?_filter_ne r k ns (fun hk => hns hk.symm)]

theorem lookup_applyOps (ops : List RegistryOp) :
    ∀ (r : Registry) (k : RouteKey),
      lookupDest (applyOps r ops) k = (lastWriteOn k ops).getD (lookupDest r k) := by
  induction ops with
  | nil => intro r k; rfl
  | cons op ops ih =>
    intro r k
    show lookupDest (applyOps (applyOp r op) ops) k = _
    rw [ih (applyOp r op) k]
    simp only [lastWriteOn]
    cases hlw : lastWriteOn k ops with
    | some v => simp
    | none =>
      simp only [Option.getD_none]
      by_cases hk : op.key = k
      · rw [if_pos hk, ← hk, lookup_applyOp_key]
        simp
      · rw [if_neg hk, lookup_applyOp_ne r op k hk]
        simp

theorem lastWriteOn_none_of_untouched (k : RouteKey) (ops : List RegistryOp)
    (h : ∀ op ∈ ops, op.key ≠ k) : lastWriteOn k ops = none := by
  induction ops with
  | nil => rfl
  | cons op ops ih =>
    simp only [lastWriteOn]
    rw [ih (fun o ho => h o (List.mem_cons_of_mem op ho))]
    rw [if_neg (h op (List.mem_cons_self op ops))]

/-! ### Ingestion Endpoint lemmas -/

theorem handleRequest_violation (st : IngestState) (rq : HttpRequest)
    (kind : SignalKind) (hk : signalKindOfPath rq.path = some kind)
    (hv : protocolViolated rq = true) :
    handleRequest st rq = (⟨400, some .protocolViolation⟩, st) := by
  simp [handleRequest, hk, hv]

theorem handleRequest_unroutable (st : IngestState) (rq : HttpRequest)
    (kind : SignalKind) (batch : TelemetryBatch) (key : RouteKey)
    (hk : signalKindOfPath rq.path = some kind)
    (hv : protocolViolated rq = false)
    (hd : decodeRequest rq.contentType kind rq.body = .ok batch)
    (hr : resolveRouteKey batch.resource = .ok key)
    (hl : lookupDest st.registry key = none) :
    handleRequest st rq =
      (⟨202, none⟩,
        { st with
            counters :=
              { st.counters with
                  ingested := st.counters.ingested + 1
                  unroutable := st.counters.unroutable + 1
                  dropped := st.counters.dropped + 1 }
            lastResort := batch :: st.lastResort }) := by
  simp [handleRequest, hk, hv, hd, hr, hl]

theorem handleRequest_routed (st : IngestState) (rq : HttpRequest)
    (kind : SignalKind) (batch : TelemetryBatch) (key : RouteKey)
    (dest : Destination)
    (hk : signalKindOfPath rq.path = some kind)
    (hv : protocolViolated rq = false)
    (hd : decodeRequest rq.contentType kind rq.body = .ok batch)
    (hr : resolveRouteKey batch.resource = .ok key)
    (hl : lookupDest st.registry key = some dest)
    (hq : st.queue.length < st.capacity) :
    handleRequest st rq =
      (⟨202, none⟩,
        { st with
            counters := { st.counters with ingested := st.counters.ingested + 1 }
            queue := st.queue ++ [⟨dest, batch⟩] }) := by
  simp [handleRequest, hk, hv, hd, hr, hl, enqueueTask, hq]

theorem handleRequest_queue_full (st : IngestState) (rq : HttpRequest)
    (kind : SignalKind) (batch : TelemetryBatch) (key : RouteKey)
    (dest : Destination)
    (hk : signalKindOfPath rq.path = some kind)
    (hv : protocolViolated rq = false)
    (hd : decodeRequest rq.contentType kind rq.body = .ok batch)
    (hr : resolveRouteKey batch.resource = .ok key)
    (hl : lookupDest st.registry key = some dest)
    (hq : ¬ st.queue.length < st.capacity) :
    handleRequest st rq =
      (⟨202, none⟩,
        { st with counters :=
            { st.counters with
                ingested := st.counters.ingested + 1
                dropped := st.counters.dropped + 1 } }) := by
  simp [handleRequest, hk, hv, hd, hr, hl, enqueueTask, hq]

/-! ### Forwarder lemmas -/

theorem runTask_all_retryable (t : ForwardTask) (respond : Nat → Nat)
    (h : ∀ i, isRetryableStatus (respond i) = true) :
    ∀ (left done : Nat),
      runTask t respond done left =
        ⟨.deadLettered, List.replicate left ⟨t.dest, encodeBatch t.batch⟩⟩ := by
  intro left
  induction left with
  | zero => intro done; rfl
  | succ left ih =>
    intro done
    have hs : isSuccessStatus (respond done) = false := by
      have := h done
      simp only [isRetryableStatus, isSuccessStatus] at *
      rcases Bool.or_eq_true _ _ |>.mp this with h1 | h1
      · have : respond done = 429 := by simpa using h1
        simp [this]
      · have h500 : 500 ≤ respond done := by
          have := Bool.and_eq_true _ _ |>.mp h1
          simpa using this.1
        simp only [Bool.and_eq_false_iff]
        right
        simp only [decide_eq_false_iff_not, not_lt]
        omega
    simp only [runTask, hs, h done, if_false, if_true, Bool.false_eq_true,
      if_neg (by simp : ¬ (false = true))]
    rw [ih (done + 1)]
    simp [List.replicate]

theorem runTask_first_non_retryable (t : ForwardTask) (respond : Nat → Nat)
    (done left : Nat)
    (hs : isSuccessStatus (respond done) = false)
    (hr : isRetryableStatus (respond done) = false) :
    runTask t respond done (left + 1) =
      ⟨.deadLettered, [⟨t.dest, encodeBatch t.batch⟩]⟩ := by
  simp [runTask, hs, hr]

theorem runTask_all_success (t : ForwardTask) (respond : Nat → Nat)
    (done left : Nat)
    (hs : isSuccessStatus (respond done) = true) :
    runTask t respond done (left + 1) =
      ⟨.delivered, [⟨t.dest, encodeBatch t.batch⟩]⟩ := by
  simp [runTask, hs]

theorem runTask_sends_dest (t : ForwardTask) (respond : Nat → Nat) :
    ∀ (left done : Nat), ∀ s ∈ (runTask t respond done left).sends,
      s.dest = t.dest := by
  intro left
  induction left with
  | zero => intro done s hs; simp [runTask] at hs
  | succ left ih =>
    intro done s hs
    simp only [runTask] at hs
    split at hs
    · simp only [List.mem_singleton] at hs
      rw [hs]
    · split at hs
      · simp only [List.mem_cons] at hs
        rcases hs with hs | hs
        · rw [hs]
        · exact ih (done + 1) s hs
      · simp only [List.mem_singleton] at hs
        rw [hs]

theorem runTask_sends_bounded (t : ForwardTask) (respond : Nat → Nat) :
    ∀ (left done : Nat), (runTask t respond done left).sends.length ≤ left := by
  intro left
  induction left with
  | zero => intro done; simp [runTask]
  | succ left ih =>
    intro done
    simp only [runTask]
    split
    · simp
    · split
      · simp only [List.length_cons]
        exact Nat.succ_le_succ (ih (done + 1))
      · simp

/-! ### Concrete sample data for witnesses -/

/-- A small concrete trace batch routed to namespace `acme`. -/
def sampleBatch : TelemetryBatch :=
  ⟨.trace, [("service.namespace", .str "acme")], [[1, 2, 3]]⟩

/-- A concrete registered destination. -/
def sampleDest : Destination := ⟨"http://sink.local/v1/traces", "secret-key"⟩

/-- All counters at zero. -/
def emptyCounters : Counters := ⟨0, 0, 0, 0, 0, 0⟩

/-- A well-formed OTLP/HTTP request carrying `sampleBatch`. -/
def sampleRequest : HttpRequest :=
  ⟨"POST", "/v1/traces", "application/x-protobuf", none, false, encodeBatch sampleBatch⟩

/-- Relay state with no registered routes. -/
def unroutedState : IngestState := ⟨[], [], 4, emptyCounters, []⟩

/-- Relay state with `acme` registered to `sampleDest`. -/
def routedState : IngestState := ⟨[("acme", sampleDest)], [], 4, emptyCounters, []⟩

/-- `routedState` with a zero-capacity ForwardTask queue. -/
def fullState : IngestState := ⟨[("acme", sampleDest)], [], 0, emptyCounters, []⟩

/-- A concrete ForwardTask. -/
def sampleTask : ForwardTask := ⟨sampleDest, sampleBatch⟩

/-! ### Claims -/

/-- C1: for every ingested payload whose resolved RouteKey (the
`service.namespace` resource attribute) has no registered Destination, the
Ingestion Endpoint returns HTTP 202 to the sender, increments the
unroutable/dropped counters by one, routes the batch to the
sink-of-last-resort, and no outbound HTTP send to any Destination occurs for
that batch (the ForwardTask queue — the only source of outbound sends — is
left unchanged). -/
theorem unroutable_returns_202_and_drops
    (st : IngestState) (rq : HttpRequest) (kind : SignalKind)
    (batch : TelemetryBatch) (key : RouteKey)
    (hk : signalKindOfPath rq.path = some kind)
    (hv : protocolViolated rq = false)
    (hd : decodeRequest rq.contentType kind rq.body = .ok batch)
    (hr : resolveRouteKey batch.resource = .ok key)
    (hl : lookupDest st.registry key = none) :
    (handleRequest st rq).1 = ⟨202, none⟩ ∧
    (handleRequest st rq).2.counters.unroutable = st.counters.unroutable + 1 ∧
    (handleRequest st rq).2.counters.dropped = st.counters.dropped + 1 ∧
    (handleRequest st rq).2.lastResort = batch :: st.lastResort ∧
    (handleRequest st rq).2.queue = st.queue := by
  rw [handleRequest_unroutable st rq kind batch key hk hv hd hr hl]
  exact ⟨rfl, rfl, rfl, rfl, rfl⟩

/-- Witness for C1 at a concrete unrouted request. -/
theorem unroutable_returns_202_and_drops_witness :
    (handleRequest unroutedState sampleRequest).1 = ⟨202, none⟩ ∧
    (handleRequest unroutedState sampleRequest).2.counters.unroutable =
      unroutedState.counters.unroutable + 1 ∧
    (handleRequest unroutedState sampleRequest).2.counters.dropped =
      unroutedState.counters.dropped + 1 ∧
    (handleRequest unroutedState sampleRequest).2.lastResort =
      sampleBatch :: unroutedState.lastResort ∧
    (handleRequest unroutedState sampleRequest).2.queue = unroutedState.queue :=
  unroutable_returns_202_and_drops unroutedState sampleRequest .trace sampleBatch
    "acme" rfl rfl (decodeRequest_encodeBatch sampleBatch) rfl rfl

/-- C2: for every HTTP request to the ingestion paths that carries a
`Content-Encoding` header (any value), or whose method is not POST, or whose
content type is not `application/x-protobuf`, the Ingestion Endpoint responds
with HTTP 400 and error kind `ProtocolViolation`, regardless of whether the
body would decode successfully, and the state — in particular the ForwardTask
queue — is unchanged, so nothing is queued downstream. -/
theorem protocol_violation_rejected_400
    (st : IngestState) (rq : HttpRequest) (kind : SignalKind)
    (hk : signalKindOfPath rq.path = some kind)
    (hbad : rq.contentEncoding.isSome = true ∨ rq.method ≠ "POST" ∨
      rq.contentType ≠ "application/x-protobuf") :
    handleRequest st rq = (⟨400, some .protocolViolation⟩, st) := by
  apply handleRequest_violation st rq kind hk
  unfold protocolViolated
  rcases hbad with h | h | h
  · simp [h]
  · simp [h]
  · simp [h]

/-- Witness for C2: a request whose body is perfectly decodable but which
carries `Content-Encoding: gzip` is rejected with 400 `ProtocolViolation`. -/
theorem protocol_violation_rejected_400_witness :
    handleRequest routedState
        { sampleRequest with contentEncoding := some "gzip" } =
      (⟨400, some .protocolViolation⟩, routedState) :=
  protocol_violation_rejected_400 routedState
    { sampleRequest with contentEncoding := some "gzip" } .trace rfl (.inl rfl)

/-- C3: a ForwardTask whose Destination answers every send attempt with a
retryable status (HTTP 429 or 5xx — e.g. five consecutive 503s) is retried
with exponential backoff (nominal delay doubling up to the 30 s cap) at most
the bounded retry count (default 5) and then moves to `DeadLettered`,
incrementing `dead_lettered_total`; exactly `defaultMaxSendAttempts = 5`
sends occur, so a sixth send attempt never happens; and a 4xx status other
than 429 dead-letters with a single send, i.e. no retry at all. -/
theorem retry_exhaustion_dead_letters :
    (∀ (t : ForwardTask) (respond : Nat → Nat) (c : Counters),
        (∀ i, isRetryableStatus (respond i) = true) →
        (runTask t respond 0 defaultMaxSendAttempts).outcome = .deadLettered ∧
        (runTask t respond 0 defaultMaxSendAttempts).sends.length =
          defaultMaxSendAttempts ∧
        (reportOutcome c
            (runTask t respond 0 defaultMaxSendAttempts).outcome).deadLettered =
          c.deadLettered + 1) ∧
    (∀ i, backoffNominalMs (i + 1) = min (2 * backoffNominalMs i) 30000) ∧
    (∀ (t : ForwardTask) (respond : Nat → Nat),
        400 ≤ respond 0 → respond 0 < 500 → respond 0 ≠ 429 →
        runTask t respond 0 defaultMaxSendAttempts =
          ⟨.deadLettered, [⟨t.dest, encodeBatch t.batch⟩]⟩) := by
  refine ⟨?_, ?_, ?_⟩
  · intro t respond c h
    rw [runTask_all_retryable t respond h defaultMaxSendAttempts 0]
    exact ⟨rfl, by simp, rfl⟩
  · intro i
    unfold backoffNominalMs
    rw [pow_succ]
    have h2 : 500 * (2 ^ i * 2) = 2 * (500 * 2 ^ i) := by ring
    rw [h2]
    omega
  · intro t respond h1 h2 h3
    have hs : isSuccessStatus (respond 0) = false := by
      simp only [isSuccessStatus, Bool.and_eq_false_iff, decide_eq_false_iff_not,
        not_le, not_lt]
      omega
    have hr : isRetryableStatus (respond 0) = false := by
      simp only [isRetryableStatus, Bool.or_eq_false_iff, beq_eq_false_iff_ne,
        ne_eq, Bool.and_eq_false_iff, decide_eq_false_iff_not, not_le, not_lt]
      exact ⟨h3, Or.inl (by omega)⟩
    exact runTask_first_non_retryable t respond 0 4 hs hr

/-- Witness for C3: five consecutive 503s dead-letter `sampleTask` after
exactly five sends, and a single 404 dead-letters it after one send. -/
theorem retry_exhaustion_dead_letters_witness :
    ((runTask sampleTask (fun _ => 503) 0 defaultMaxSendAttempts).outcome =
        .deadLettered ∧
      (runTask sampleTask (fun _ => 503) 0 defaultMaxSendAttempts).sends.length =
        defaultMaxSendAttempts ∧
      (reportOutcome emptyCounters
          (runTask sampleTask (fun _ => 503) 0
            defaultMaxSendAttempts).outcome).deadLettered =
        emptyCounters.deadLettered + 1) ∧
    runTask sampleTask (fun _ => 404) 0 defaultMaxSendAttempts =
      ⟨.deadLettered, [⟨sampleTask.dest, encodeBatch sampleTask.batch⟩]⟩ :=
  ⟨retry_exhaustion_dead_letters.1 sampleTask (fun _ => 503) emptyCounters
      (fun _ => rfl),
    retry_exhaustion_dead_letters.2.2 sampleTask (fun _ => 404)
      (by decide) (by decide) (by decide)⟩

/-- C4: registry operations are linearizable per key.  First conjunct: in any
total order of committed operations, a lookup observes exactly the value of
the last operation on that key (the full old or new value, never a
half-written one).  Second conjunct: after registering namespace `n`,
interleaving any operations on other namespaces (e.g. a concurrent
registration of `m ≠ n`) leaves `lookup n` at the registered destination.
Third conjunct: submitting a batch for `n` against such a registry routes it
to that destination and returns 202. -/
theorem registry_linearizable_per_key :
    (∀ (r : Registry) (ops : List RegistryOp) (k : RouteKey),
        lookupDest (applyOps r ops) k =
          (lastWriteOn k ops).getD (lookupDest r k)) ∧
    (∀ (r : Registry) (ops : List RegistryOp) (n : RouteKey) (d : Destination),
        (∀ op ∈ ops, op.key ≠ n) →
        lookupDest (applyOps (applyOp r (.register n d)) ops) n = some d) ∧
    (∀ (st : IngestState) (rq : HttpRequest) (kind : SignalKind)
        (batch : TelemetryBatch) (n : RouteKey) (d : Destination)
        (r : Registry) (ops : List RegistryOp),
        st.registry = applyOps (applyOp r (.register n d)) ops →
        (∀ op ∈ ops, op.key ≠ n) →
        signalKindOfPath rq.path = some kind →
        protocolViolated rq = false →
        decodeRequest rq.contentType kind rq.body = .ok batch →
        resolveRouteKey batch.resource = .ok n →
        st.queue.length < st.capacity →
        (handleRequest st rq).1 = ⟨202, none⟩ ∧
        (handleRequest st rq).2.queue = st.queue ++ [⟨d, batch⟩]) := by
  have hreg : ∀ (r : Registry) (ops : List RegistryOp) (n : RouteKey)
      (d : Destination), (∀ op ∈ ops, op.key ≠ n) →
      lookupDest (applyOps (applyOp r (.register n d)) ops) n = some d := by
    intro r ops n d h
    rw [lookup_applyOps ops (applyOp r (.register n d)) n,
      lastWriteOn_none_of_untouched n ops h, Option.getD_none]
    have hk := lookup_applyOp_key r (.register n d)
    simpa [RegistryOp.key, RegistryOp.write] using hk
  refine ⟨fun r ops k => lookup_applyOps ops r k, hreg, ?_⟩
  intro st rq kind batch n d r ops hst hops hk hv hd hres hq
  have hl : lookupDest st.registry n = some d := by
    rw [hst]; exact hreg r ops n d hops
  rw [handleRequest_routed st rq kind batch n d hk hv hd hres hl hq]
  exact ⟨rfl, rfl⟩

/-- Witness for C4: register `acme`, concurrently register `other`, then look
up and route a batch for `acme`. -/
theorem registry_linearizable_per_key_witness :
    lookupDest
        (applyOps (applyOp [] (.register "acme" sampleDest))
          [.register "other" ⟨"http://other.local", "k2"⟩]) "acme" =
      some sampleDest ∧
    (handleRequest
        { routedState with
            registry :=
              applyOps (applyOp [] (.register "acme" sampleDest))
                [.register "other" ⟨"http://other.local", "k2"⟩] }
        sampleRequest).1 = ⟨202, none⟩ :=
  ⟨registry_linearizable_per_key.2.1 []
      [.register "other" ⟨"http://other.local", "k2"⟩] "acme" sampleDest
      (by decide),
    (registry_linearizable_per_key.2.2
        { routedState with
            registry :=
              applyOps (applyOp [] (.register "acme" sampleDest))
                [.register "other" ⟨"http://other.local", "k2"⟩] }
        sampleRequest .trace sampleBatch "acme" sampleDest []
        [.register "other" ⟨"http://other.local", "k2"⟩] rfl (by decide) rfl rfl
        (decodeRequest_encodeBatch sampleBatch) rfl (by decide)).1⟩

/-- C5: every buffer the Protobuf Decoder successfully decodes into a
TelemetryBatch re-encodes for the outbound send losslessly: decoding the
re-encoded bytes yields a batch with exactly the same record count and
exactly the same resource-attribute keys and values (indeed the same
batch). -/
theorem decode_reencode_lossless (ct : String) (kind : SignalKind)
    (bs : List Nat) (b : TelemetryBatch)
    (h : decodeRequest ct kind bs = .ok b) :
    decodeBody kind (encodeBatch b) = .ok b ∧
    ∃ b', decodeBody kind (encodeBatch b) = .ok b' ∧
      b'.records.length = b.records.length ∧ b'.resource = b.resource := by
  have hk := decodeRequest_kind ct kind bs b h
  have hrt := decodeBody_encodeBatch b
  rw [hk] at hrt
  exact ⟨hrt, b, hrt, rfl, rfl⟩

/-- Witness for C5 at the concrete sample batch. -/
theorem decode_reencode_lossless_witness :
    decodeBody .trace (encodeBatch sampleBatch) = .ok sampleBatch :=
  (decode_reencode_lossless "application/x-protobuf" .trace
      (encodeBatch sampleBatch) sampleBatch
      (decodeRequest_encodeBatch sampleBatch)).1

/-- C6: a TelemetryBatch is delivered to at most one Destination.  First
conjunct: a valid payload whose `service.namespace` matches a registered
route yields 202 and enqueues exactly one ForwardTask, bound to exactly that
one Destination.  Second conjunct: every outbound send the Forwarder ever
issues for a task targets that task's single Destination.  Third conjunct:
absent injected failures (every attempt answered 2xx), the Forwarder issues
exactly one outbound send, containing the batch's re-encoded records. -/
theorem at_most_one_destination :
    (∀ (st : IngestState) (rq : HttpRequest) (kind : SignalKind)
        (batch : TelemetryBatch) (key : RouteKey) (dest : Destination),
        signalKindOfPath rq.path = some kind →
        protocolViolated rq = false →
        decodeRequest rq.contentType kind rq.body = .ok batch →
        resolveRouteKey batch.resource = .ok key →
        lookupDest st.registry key = some dest →
        st.queue.length < st.capacity →
        (handleRequest st rq).1 = ⟨202, none⟩ ∧
        (handleRequest st rq).2.queue = st.queue ++ [⟨dest, batch⟩]) ∧
    (∀ (t : ForwardTask) (respond : Nat → Nat) (left done : Nat),
        ∀ s ∈ (runTask t respond done left).sends, s.dest = t.dest) ∧
    (∀ (t : ForwardTask) (respond : Nat → Nat),
        (∀ i, isSuccessStatus (respond i) = true) →
        runTask t respond 0 defaultMaxSendAttempts =
          ⟨.delivered, [⟨t.dest, encodeBatch t.batch⟩]⟩) := by
  refine ⟨?_, ?_, ?_⟩
  · intro st rq kind batch key dest hk hv hd hr hl hq
    rw [handleRequest_routed st rq kind batch key dest hk hv hd hr hl hq]
    exact ⟨rfl, rfl⟩
  · intro t respond left done
    exact runTask_sends_dest t respond left done
  · intro t respond h
    exact runTask_all_success t respond 0 4 (h 0)

/-- Witness for C6: the sample request is enqueued once for `sampleDest`, and
an all-200 destination receives exactly one send. -/
theorem at_most_one_destination_witness :
    ((handleRequest routedState sampleRequest).1 = ⟨202, none⟩ ∧
      (handleRequest routedState sampleRequest).2.queue =
        routedState.queue ++ [⟨sampleDest, sampleBatch⟩]) ∧
    runTask sampleTask (fun _ => 200) 0 defaultMaxSendAttempts =
      ⟨.delivered, [⟨sampleTask.dest, encodeBatch sampleTask.batch⟩]⟩ :=
  ⟨at_most_one_destination.1 routedState sampleRequest .trace sampleBatch "acme"
      sampleDest rfl rfl (decodeRequest_encodeBatch sampleBatch) rfl rfl
      (by decide),
    at_most_one_destination.2.2 sampleTask (fun _ => 200) (fun _ => rfl)⟩

/-- C7: the ForwardTask queue never exceeds its configured capacity —
enqueue preserves the capacity bound, and when the queue is full the
endpoint's enqueue fails fast (queue unchanged, counted as a drop) while the
HTTP response path still answers 202 immediately; the Forwarder never retries
a task beyond its attempt budget; and at capacity the shedding operation
drops the oldest queued, not-yet-sent tasks, counted as drops. -/
theorem queue_bounded_backpressure :
    (∀ (cap : Nat) (q : List ForwardTask) (t : ForwardTask),
        q.length ≤ cap → ((enqueueTask cap q t).1).length ≤ cap) ∧
    (∀ (cap : Nat) (q : List ForwardTask) (t : ForwardTask),
        ¬ q.length < cap → enqueueTask cap q t = (q, true)) ∧
    (∀ (st : IngestState) (rq : HttpRequest) (kind : SignalKind)
        (batch : TelemetryBatch) (key : RouteKey) (dest : Destination),
        signalKindOfPath rq.path = some kind →
        protocolViolated rq = false →
        decodeRequest rq.contentType kind rq.body = .ok batch →
        resolveRouteKey batch.resource = .ok key →
        lookupDest st.registry key = some dest →
        ¬ st.queue.length < st.capacity →
        (handleRequest st rq).1 = ⟨202, none⟩ ∧
        (handleRequest st rq).2.queue = st.queue ∧
        (handleRequest st rq).2.counters.dropped = st.counters.dropped + 1) ∧
    (∀ (t : ForwardTask) (respond : Nat → Nat) (left done : Nat),
        (runTask t respond done left).sends.length ≤ left) ∧
    (∀ (cap : Nat) (q : List ForwardTask),
        ((shedOldest cap q).1).length ≤ cap ∧
        (shedOldest cap q).1 = q.drop ((shedOldest cap q).2)) := by
  refine ⟨?_, ?_, ?_, ?_, ?_⟩
  · intro cap q t h
    unfold enqueueTask
    by_cases hq : q.length < cap
    · simp [hq]
      omega
    · simp [hq]
      omega
  · intro cap q t h
    unfold enqueueTask
    rw [if_neg h]
  · intro st rq kind batch key dest hk hv hd hr hl hq
    rw [handleRequest_queue_full st rq kind batch key dest hk hv hd hr hl hq]
    exact ⟨rfl, rfl, rfl⟩
  · intro t respond left done
    exact runTask_sends_bounded t respond left done
  · intro cap q
    unfold shedOldest
    by_cases hq : q.length ≤ cap
    · simp [hq]
    · rw [if_neg hq]
      refine ⟨?_, rfl⟩
      rw [List.length_drop]
      omega

/-- Witness for C7: a zero-capacity queue rejects the sample request's task
with a counted drop while still answering 202. -/
theorem queue_bounded_backpressure_witness :
    (handleRequest fullState sampleRequest).1 = ⟨202, none⟩ ∧
    (handleRequest fullState sampleRequest).2.queue = fullState.queue ∧
    (handleRequest fullState sampleRequest).2.counters.dropped =
      fullState.counters.dropped + 1 :=
  queue_bounded_backpressure.2.2.1 fullState sampleRequest .trace sampleBatch
    "acme" sampleDest rfl rfl (decodeRequest_encodeBatch sampleBatch) rfl rfl
    (by decide)

end Relay

namespace Demo

/-! ## The demo application

Embeddings of the HTTP handlers of `backend/server.js` and
`frontend/server.js`.  Express handlers are modelled as pure functions from
the request-relevant inputs (route, database query outcome, backend call
outcome) to the HTTP reply they produce. -/

/-- JSON values, as assembled by the Express handlers for `res.json`. -/
inductive Json
  | str (s : String)
  | num (n : Int)
  | obj (fields : List (String × Json))
  | arr (xs : List Json)

/-- `{"error": msg}` as produced by the handlers\' catch branches. -/
def errorJson (msg : String) : Json := .obj [("error", .str msg)]

/-- A row of the `users` table as selected by the backend
(`id, name, email, created_at`). -/
structure UserRow where
  id : Int
  name : String
  email : String
  created_at : String
deriving DecidableEq

/-- The JSON object for one user row, as passed to `res.json`. -/
def userJson (u : UserRow) : Json :=
  .obj [("id", .num u.id), ("name", .str u.name), ("email", .str u.email),
    ("created_at", .str u.created_at)]

/-- Outcome of a `pool.query` call: the rows on success, or the thrown
error\'s message. -/
inductive QueryOutcome (α : Type)
  | ok (rows : List α)
  | failed (message : String)

/-- An HTTP reply sent by a handler: status plus JSON body. -/
structure HttpReply where
  status : Nat
  body : Json

/-- The rows produced by
`SELECT id, name, email, created_at FROM users WHERE id = $1`
(`backend/server.js` line 175) against a given table state. -/
def selectUserById (table : List UserRow) (uid : Int) : List UserRow :=
  table.filter (fun u => u.id == uid)

/-- Embeds the `app.get(\'/users/:id\')` handler of `backend/server.js`
(lines 170-202): on query success an empty row set yields
404 `{"error": "User not found"}`, otherwise 200 with `result.rows[0]`;
a query failure is caught and yields 500 with the error message. -/
def getUserById (q : QueryOutcome UserRow) : HttpReply :=
  match q with
  | .failed msg => ⟨500, errorJson msg⟩
  | .ok rows =>
    match rows with
    | [] => ⟨404, errorJson "User not found"⟩
    | row :: _ => ⟨200, userJson row⟩

/-- State of the backend database: `none` while the `users` table does not
exist, `some rows` once it does. -/
structure DbState where
  usersTable : Option (List UserRow)
deriving DecidableEq

/-- The three sample rows inserted by `initDatabase`\'s seed branch
(`backend/server.js` lines 86-91); `SERIAL` assigns ids 1..3 on an empty
table and `created_at` defaults to the current timestamp `now`. -/
def seedRows (now : String) : List UserRow :=
  [⟨1, "Alice Johnson", "alice@example.com", now⟩,
   ⟨2, "Bob Smith", "bob@example.com", now⟩,
   ⟨3, "Charlie Brown", "charlie@example.com", now⟩]

/-- Embeds `initDatabase` of `backend/server.js` (lines 70-108), success
path: `CREATE TABLE IF NOT EXISTS users ...` creates the table only when
absent, then `SELECT COUNT(*) FROM users` guards the seed insert — the three
sample users are inserted only when the count is 0. -/
def initDatabase (now : String) (db : DbState) : DbState :=
  let table := db.usersTable.getD []
  let table2 := if table.length = 0 then seedRows now else table
  ⟨some table2⟩

/-! ### Frontend: the two server variants

`frontend/server.js` contains two complete server programs separated only by
their OpenTelemetry SDK setup: a minimal auto-configured variant
(lines 1-265) and an explicit-exporter variant (lines 266-567).  Each
defines the same six Express routes.  Both are embedded below; per the
refinement claim, the second embedding is the comparison definition. -/

/-- The HTML template sent by `res.send` for `GET /` in the first
(auto-configured) variant of `frontend/server.js` (lines 71-139); braces,
quotes and apostrophes appear escaped. -/
def homepageHtmlAuto : String :=
  "\n      <!DOCTYPE html>\n      <html>\n        <head>\n          <title>3-Tier OTel Demo</title>\n          <style>\n            body \x7b font-family: Arial, sans-serif; margin: 40px; \x7d\n            .container \x7b max-width: 800px; margin: 0 auto; \x7d\n            button \x7b\n              padding: 15px 30px;\n              font-size: 16px;\n              margin: 10px;\n              cursor: pointer;\n              background-color: #0078D4;\n              color: white;\n              border: none;\n              border-radius: 4px;\n            \x7d\n            button:hover \x7b background-color: #106EBE; \x7d\n            .result \x7b\n              margin-top: 20px;\n              padding: 20px;\n              background-color: #f0f0f0;\n              border-radius: 4px;\n            \x7d\n            h1 \x7b color: #333; \x7d\n          </style>\n        </head>\n        <body>\n          <div class=\"container\">\n            <h1>🚀 3-Tier OpenTelemetry Demo</h1>\n            <p>This demo shows distributed tracing across Frontend → Backend → Database</p>\n\n            <h2>Test Operations:</h2>\n            <button onclick=\"getUsers()\">Get All Users</button>\n            <button onclick=\"getUser()\">Get User #1</button>\n            <button onclick=\"createUser()\">Create User</button>\n            <button onclick=\"getStats()\">Get Stats</button>\n\n            <div id=\"result\" class=\"result\" style=\"display:none;\">\n              <h3>Result:</h3>\n              <pre id=\"output\"></pre>\n            </div>\n          </div>\n\n          <script>\n            async function callApi(endpoint) \x7b\n              const resultDiv = document.getElementById(\x27result\x27);\n              const outputPre = document.getElementById(\x27output\x27);\n\n              try \x7b\n                const response = await fetch(endpoint);\n                const data = await response.json();\n                outputPre.textContent = JSON.stringify(data, null, 2);\n                resultDiv.style.display = \x27block\x27;\n              \x7d catch (error) \x7b\n                outputPre.textContent = \x27Error: \x27 + error.message;\n                resultDiv.style.display = \x27block\x27;\n              \x7d\n            \x7d\n\n            function getUsers() \x7b callApi(\x27/api/users\x27); \x7d\n            function getUser() \x7b callApi(\x27/api/users/1\x27); \x7d\n            function createUser() \x7b callApi(\x27/api/users/create\x27); \x7d\n            function getStats() \x7b callApi(\x27/api/stats\x27); \x7d\n          </script>\n        </body>\n      </html>\n    "

/-- The HTML template sent by `res.send` for `GET /` in the second
(explicit-exporter) variant of `frontend/server.js` (lines 373-441); its
non-ASCII characters are mojibake in the source and are kept byte-for-byte. -/
def homepageHtmlExplicit : String :=
  "\n      <!DOCTYPE html>\n      <html>\n        <head>\n          <title>3-Tier OTel Demo</title>\n          <style>\n            body \x7b font-family: Arial, sans-serif; margin: 40px; \x7d\n            .container \x7b max-width: 800px; margin: 0 auto; \x7d\n            button \x7b\n              padding: 15px 30px;\n              font-size: 16px;\n              margin: 10px;\n              cursor: pointer;\n              background-color: #0078D4;\n              color: white;\n              border: none;\n              border-radius: 4px;\n            \x7d\n            button:hover \x7b background-color: #106EBE; \x7d\n            .result \x7b\n              margin-top: 20px;\n              padding: 20px;\n              background-color: #f0f0f0;\n              border-radius: 4px;\n            \x7d\n            h1 \x7b color: #333; \x7d\n          </style>\n        </head>\n        <body>\n          <div class=\"container\">\n            <h1>ðŸš€ 3-Tier OpenTelemetry Demo</h1>\n            <p>This demo shows distributed tracing across Frontend â†’ Backend â†’ Database</p>\n\n            <h2>Test Operations:</h2>\n            <button onclick=\"getUsers()\">Get All Users</button>\n            <button onclick=\"getUser()\">Get User #1</button>\n            <button onclick=\"createUser()\">Create User</button>\n            <button onclick=\"getStats()\">Get Stats</button>\n\n            <div id=\"result\" class=\"result\" style=\"display:none;\">\n              <h3>Result:</h3>\n              <pre id=\"output\"></pre>\n            </div>\n          </div>\n\n          <script>\n            async function callApi(endpoint) \x7b\n              const resultDiv = document.getElementById(\x27result\x27);\n              const outputPre = document.getElementById(\x27output\x27);\n\n              try \x7b\n                const response = await fetch(endpoint);\n                const data = await response.json();\n                outputPre.textContent = JSON.stringify(data, null, 2);\n                resultDiv.style.display = \x27block\x27;\n              \x7d catch (error) \x7b\n                outputPre.textContent = \x27Error: \x27 + error.message;\n                resultDiv.style.display = \x27block\x27;\n              \x7d\n            \x7d\n\n            function getUsers() \x7b callApi(\x27/api/users\x27); \x7d\n            function getUser() \x7b callApi(\x27/api/users/1\x27); \x7d\n            function createUser() \x7b callApi(\x27/api/users/create\x27); \x7d\n            function getStats() \x7b callApi(\x27/api/stats\x27); \x7d\n          </script>\n        </body>\n      </html>\n    "


/-- The routes served by either frontend variant. -/
inductive FrontendRoute
  | health
  | home
  | apiUsers
  | apiUser (id : String)
  | apiUsersCreate
  | apiStats
deriving DecidableEq

/-- Outcome of the frontend\'s axios call to the backend: the backend\'s JSON
on a 2xx answer, or the message of the error axios threw. -/
inductive BackendResult
  | ok (data : Json)
  | failed (message : String)

/-- Body of a frontend HTTP response: `res.json` or `res.send` (HTML). -/
inductive ReplyBody
  | json (j : Json)
  | html (s : String)

/-- An HTTP reply sent by a frontend handler. -/
structure FrontendReply where
  status : Nat
  body : ReplyBody

/-- `{"status": "healthy", "service": "frontend"}` from `GET /health`. -/
def healthJson : Json :=
  .obj [("status", .str "healthy"), ("service", .str "frontend")]

/-- Embeds the auto-configured variant of `frontend/server.js`
(lines 1-265) at the HTTP interface: `/health` answers a fixed JSON,
`/` sends the homepage HTML, and each `/api/*` route forwards the backend\'s
data with 200 or catches the axios error with 500 `{"error": msg}`. -/
def handleFrontendAuto : FrontendRoute → BackendResult → FrontendReply
  | .health, _ => ⟨200, .json healthJson⟩
  | .home, _ => ⟨200, .html homepageHtmlAuto⟩
  | .apiUsers, .ok d => ⟨200, .json d⟩
  | .apiUsers, .failed m => ⟨500, .json (errorJson m)⟩
  | .apiUser _, .ok d => ⟨200, .json d⟩
  | .apiUser _, .failed m => ⟨500, .json (errorJson m)⟩
  | .apiUsersCreate, .ok d => ⟨200, .json d⟩
  | .apiUsersCreate, .failed m => ⟨500, .json (errorJson m)⟩
  | .apiStats, .ok d => ⟨200, .json d⟩
  | .apiStats, .failed m => ⟨500, .json (errorJson m)⟩

/-- Embeds the explicit-exporter variant of `frontend/server.js`
(lines 266-567) at the HTTP interface; its handler code is identical to the
first variant\'s except for the homepage HTML constant. -/
def handleFrontendExplicit : FrontendRoute → BackendResult → FrontendReply
  | .health, _ => ⟨200, .json healthJson⟩
  | .home, _ => ⟨200, .html homepageHtmlExplicit⟩
  | .apiUsers, .ok d => ⟨200, .json d⟩
  | .apiUsers, .failed m => ⟨500, .json (errorJson m)⟩
  | .apiUser _, .ok d => ⟨200, .json d⟩
  | .apiUser _, .failed m => ⟨500, .json (errorJson m)⟩
  | .apiUsersCreate, .ok d => ⟨200, .json d⟩
  | .apiUsersCreate, .failed m => ⟨500, .json (errorJson m)⟩
  | .apiStats, .ok d => ⟨200, .json d⟩
  | .apiStats, .failed m => ⟨500, .json (errorJson m)⟩

/-! ### Claims about the demo application -/

theorem selectUserById_eq_single (table : List UserRow) (w : UserRow)
    (hmem : w ∈ table) (hnodup : (table.map (fun u => u.id)).Nodup) :
    selectUserById table w.id = [w] := by
  induction table with
  | nil => cases hmem
  | cons u us ih =>
    simp only [List.map_cons, List.nodup_cons, List.mem_map] at hnodup
    obtain ⟨hu, hus⟩ := hnodup
    rcases List.mem_cons.mp hmem with h | h
    · subst h
      unfold selectUserById
      rw [List.filter_cons_of_pos (by simp)]
      have hnil : us.filter (fun x => x.id == w.id) = [] := by
        rw [List.filter_eq_nil_iff]
        intro x hx
        simp only [beq_iff_eq]
        intro hxid
        exact hu ⟨x, hx, hxid⟩
      rw [hnil]
    · have hne : (u.id == w.id) = false := by
        simp only [beq_eq_false_iff_ne, ne_eq]
        intro hid
        exact hu ⟨w, h, hid.symm⟩
      unfold selectUserById
      rw [List.filter_cons_of_neg (by simp [hne])]
      exact ih h hus

/-- C9: for every request to the backend\'s `GET /users/:id` where the
database query succeeds, an empty row set yields HTTP 404 with body
`{"error": "User not found"}`; a matching row (unique, since `id` is the
primary key, modelled as `Nodup` ids) yields HTTP 200 with exactly that
row\'s `id`, `name`, `email` and `created_at`; a query failure yields HTTP
500 with the error message. -/
theorem get_user_by_id_spec (table : List UserRow) (uid : Int) :
    (selectUserById table uid = [] →
        getUserById (.ok (selectUserById table uid)) =
          ⟨404, errorJson "User not found"⟩) ∧
    (∀ w ∈ table, w.id = uid → (table.map (fun u => u.id)).Nodup →
        getUserById (.ok (selectUserById table uid)) = ⟨200, userJson w⟩) ∧
    (∀ msg, getUserById (.failed msg) = ⟨500, errorJson msg⟩) := by
  refine ⟨?_, ?_, fun msg => rfl⟩
  · intro h
    rw [h]
    rfl
  · intro w hw hid hnd
    rw [← hid, selectUserById_eq_single table w hw hnd]
    rfl

/-- Sample table for the C9 witness. -/
def aliceRow : UserRow := ⟨1, "Alice Johnson", "alice@example.com", "t0"⟩

/-- Witness for C9: a one-row table answers 404 for id 99, 200 with the row
for id 1, and 500 on query failure. -/
theorem get_user_by_id_spec_witness :
    getUserById (.ok (selectUserById [aliceRow] 99)) =
      ⟨404, errorJson "User not found"⟩ ∧
    getUserById (.ok (selectUserById [aliceRow] 1)) = ⟨200, userJson aliceRow⟩ ∧
    getUserById (.failed "boom") = ⟨500, errorJson "boom"⟩ :=
  ⟨(get_user_by_id_spec [aliceRow] 99).1 rfl,
    (get_user_by_id_spec [aliceRow] 1).2.1 aliceRow (by simp) rfl (by simp),
    (get_user_by_id_spec [aliceRow] 1).2.2 "boom"⟩

/-- C10: `initDatabase` is idempotent with respect to seed data: the sample
users are inserted only when `SELECT COUNT(*)` returns 0, so running
`initDatabase` again after a successful run leaves the `users` table\'s row
set unchanged (the `CREATE TABLE` uses `IF NOT EXISTS` and the seed branch is
skipped for any non-empty table, whatever timestamp the second run sees). -/
theorem init_database_idempotent (now now2 : String) (db : DbState) :
    initDatabase now2 (initDatabase now db) = initDatabase now db ∧
    (∀ rows, rows ≠ [] → db.usersTable = some rows →
        (initDatabase now db).usersTable = some rows) := by
  constructor
  · unfold initDatabase
    cases hdb : db.usersTable with
    | none => simp [seedRows]
    | some rows =>
      cases rows with
      | nil => simp [seedRows]
      | cons r rs => simp
  · intro rows hne hdb
    unfold initDatabase
    rw [hdb]
    cases rows with
    | nil => exact absurd rfl hne
    | cons r rs => simp

/-- Witness for C10: seeding an absent table then re-running changes nothing,
and a non-empty table is never re-seeded. -/
theorem init_database_idempotent_witness :
    initDatabase "t1" (initDatabase "t0" ⟨none⟩) = initDatabase "t0" ⟨none⟩ ∧
    (initDatabase "t0" ⟨some [aliceRow]⟩).usersTable = some [aliceRow] :=
  ⟨(init_database_idempotent "t0" "t1" ⟨none⟩).1,
    (init_database_idempotent "t0" "t1" ⟨some [aliceRow]⟩).2 [aliceRow]
      (by simp) rfl⟩

set_option maxRecDepth 40000 in
/-- C8 counterexample: the two frontend server variants are NOT
observationally equivalent on every listed route — on `GET /` the
auto-configured variant sends HTML containing well-formed UTF-8
(`🚀`, `→`) while the explicit-exporter variant\'s template contains the
mojibake bytes `ðŸš€`/`â†’`, so the response bodies differ. -/
theorem frontend_variants_differ_on_home :
    handleFrontendAuto .home (.ok (.arr [])) ≠
      handleFrontendExplicit .home (.ok (.arr [])) := by
  intro h
  have hbody : (handleFrontendAuto .home (.ok (.arr []))).body =
      (handleFrontendExplicit .home (.ok (.arr []))).body := by rw [h]
  simp only [handleFrontendAuto, handleFrontendExplicit] at hbody
  injection hbody with hs
  exact absurd hs (by decide)

/-- C8 (amended): the two frontend variants agree in HTTP status and body on
`/health`, `/api/users`, `/api/users/:id`, `/api/users/create` and
`/api/stats` for every backend outcome, and agree in HTTP status (200) on
`/`; only the `/` response body differs, in the literal characters of the
homepage HTML noted in the counterexample. -/
theorem frontend_variants_equiv_off_home :
    (∀ (r : FrontendRoute) (bk : BackendResult), r ≠ .home →
        handleFrontendAuto r bk = handleFrontendExplicit r bk) ∧
    (∀ bk : BackendResult,
        (handleFrontendAuto .home bk).status =
          (handleFrontendExplicit .home bk).status) := by
  constructor
  · intro r bk hr
    cases r with
    | health => cases bk <;> rfl
    | home => exact absurd rfl hr
    | apiUsers => cases bk <;> rfl
    | apiUser id => cases bk <;> rfl
    | apiUsersCreate => cases bk <;> rfl
    | apiStats => cases bk <;> rfl
  · intro bk
    cases bk <;> rfl

/-- Witness for C8 (amended) at a concrete non-home route. -/
theorem frontend_variants_equiv_off_home_witness :
    handleFrontendAuto .apiUsers (.ok (.arr [])) =
      handleFrontendExplicit .apiUsers (.ok (.arr [])) :=
  frontend_variants_equiv_off_home.1 .apiUsers (.ok (.arr [])) (by decide)

end Demo
